import Mathlib

/-!
Verification development for the survey preprocessing pipeline in `WGK.py`
(taxonomy resolution, response normalisation, grouped statistics).

The Python pipeline is embedded shallowly:

* pandas data frames become lists of records (structures);
* a left merge `A.merge(B, how='left', on=k)` becomes, for each row of `A`,
  the block of rows of `B` matching on `k`, or a single row with a missing
  (`none`) field when no row matches — exactly the pandas semantics,
  including duplicated matches and the fact that a null key matches nothing;
* `astype(str)` on the merged domain column turns a missing value into the
  string "nan" (pandas stringifies `NaN` that way), `str.split(',')` becomes
  `String.splitOn`, `explode` becomes `flatMap`, and `astype(int)`, which
  raises `ValueError` on the first non-integer literal, becomes a function
  into `Except String _` that fails on the first unparseable token;
* scores are rationals (`ℚ`), nullable scores are `Option ℚ`; pandas
  aggregations drop null scores, `std` with the default `ddof=1` is undefined
  on singleton groups, and `quantile` uses linear interpolation at fractional
  rank `r = p * (n - 1)`.
-/

namespace WGK

/-- A row of the item table (`Item-Tabel 1.csv`, `df2` in `WGK.py`):
columns `code;subdomain_id`. -/
structure ItemRow where
  code : String
  subdomain_id : Int
deriving DecidableEq

/-- A row of the subdomain table (`Subdomain-Tabel 1.csv`, `df3`):
columns `id;domainId`, where `domainId` is kept as a raw string because it
may hold a comma-separated list of domain ids. -/
structure SubdomainRow where
  id : Int
  domainId : String
deriving DecidableEq

/-- A fully resolved taxonomy row, the state of `df1` in `WGK.py` after
step 5 (explode and integer conversion): one row per
(question_code, domain id) pair. -/
structure TaxonomyRow where
  question_code : String
  subdomain_id : Option Int
  domainId : Int
deriving DecidableEq

/-- The manual question-to-subdomain fallback table hardcoded in
`WGK.py` step 3 (`manual_map`). -/
def manual_map : List (String × Int) :=
  [("ZT117", 7), ("ZT142", 6), ("ZT121", 14), ("ZT123", 14), ("ZT144", 12),
   ("ZT118", 24), ("ZT125", 18), ("ZT126", 18), ("ZT127", 19), ("ZT134", 1),
   ("ZT135", 1), ("ZT136", 1), ("ZT143", 13), ("ZT119", 24), ("ZT129", 15),
   ("ZT124", 18), ("ZT128", 16), ("ZT122", 14), ("ZT131", 11), ("ZT145", 24),
   ("ZT132", 19), ("ZT74", 19), ("ZT133", 1), ("ZT130", 15), ("ZT146", 20),
   ("ZT120", 13), ("ZT137", 3), ("ZT138", 3), ("ZT139", 3), ("ZT140", 3),
   ("ZT141", 3)]

/-- Step 2 of `WGK.py` `main`: the left merge of the mapping relation `df1`
(of which only the `question_code` column matters downstream) with the item
table `df2[['code','subdomain_id']]` on `question_code = code`. A question
with no matching item row gets a missing `subdomain_id`; a question with
several matching item rows is duplicated, one output row per match. -/
def mergeItems (mapping : List String) (items : List ItemRow) :
    List (String × Option Int) :=
  mapping.flatMap (fun q =>
    if items.filter (fun r => decide (r.code = q)) = [] then [(q, none)]
    else (items.filter (fun r => decide (r.code = q))).map
      (fun r => (q, some r.subdomain_id)))

/-- Step 3 of `WGK.py` `main`: `df1['subdomain_id'].fillna(df1['question_code'].map(manual_map))`.
Only rows whose `subdomain_id` is still missing are filled from
`manual_map`; resolved rows are untouched. -/
def fillManual (rows : List (String × Option Int)) : List (String × Option Int) :=
  rows.map (fun r => (r.1, r.2.orElse (fun _ => List.lookup r.1 manual_map)))

/-- The state of `df1` between steps 4 and 5: `question_code`,
`subdomain_id` (possibly missing), raw `domainId` string (missing when the
subdomain merge found no match). -/
structure PreRow where
  question_code : String
  subdomain_id : Option Int
  domainId : Option String
deriving DecidableEq

/-- Step 4 of `WGK.py` `main`: the left merge with
`df3[['id','domainId']]` on `subdomain_id = id`. A missing `subdomain_id`
key matches nothing (pandas `NaN` never equals a key), so the row keeps a
missing `domainId`. -/
def mergeSubdomains (rows : List (String × Option Int)) (subs : List SubdomainRow) :
    List PreRow :=
  rows.flatMap (fun r =>
    if subs.filter (fun s => decide (some s.id = r.2)) = [] then [⟨r.1, r.2, none⟩]
    else (subs.filter (fun s => decide (some s.id = r.2))).map
      (fun s => ⟨r.1, r.2, some s.domainId⟩))

/-- The resolver state after steps 2-4 of `WGK.py` `main` (the data frame
`df1` just before the explode of step 5). -/
def annotatedDF (mapping : List String) (items : List ItemRow)
    (subs : List SubdomainRow) : List PreRow :=
  mergeSubdomains (fillManual (mergeItems mapping items)) subs

/-- Step 5, `astype(str)`: pandas renders a missing value as the string
"nan". -/
def strOfOptDomain : Option String → String
  | none => "nan"
  | some s => s

/-- Helper for `splitComma`: walk the characters, cutting at every comma;
`acc` holds the current piece reversed. -/
def splitCommaAux : List Char → List Char → List String
  | [], acc => [String.mk acc.reverse]
  | c :: cs, acc =>
    if c = (',') then String.mk acc.reverse :: splitCommaAux cs []
    else splitCommaAux cs (c :: acc)

/-- Python `str.split(',')` as pandas `.str.split(',')` applies it: split at
every comma, keeping empty pieces (so the empty string yields `[""]` and no
pieces are ever merged). -/
def splitComma (s : String) : List String := splitCommaAux s.data []

/-- Helper for `pyInt?`: read a nonempty run of decimal digits into a
number; any non-digit character makes the whole literal invalid. -/
def parseDigitsAux : List Char → Nat → Option Nat
  | [], acc => some acc
  | c :: cs, acc =>
    if c.isDigit then parseDigitsAux cs (10 * acc + (c.toNat - 48)) else none

/-- One exploded (not yet integer-converted) taxonomy row: the state of
`df1` after `str.split(',')` and `explode`, one row per domain token. -/
structure TokenRow where
  question_code : String
  subdomain_id : Option Int
  token : String
deriving DecidableEq

/-- Step 5 of `WGK.py` `main`, first half:
`df1['domainId'].astype(str).str.split(',')` followed by
`df1.explode('domainId')`. -/
def explodeDomains (rows : List PreRow) : List TokenRow :=
  rows.flatMap (fun r =>
    (splitComma (strOfOptDomain r.domainId)).map
      (fun t => ⟨r.question_code, r.subdomain_id, t⟩))

/-- Integer parsing as Python `int()` does it on a decimal string literal:
surrounding whitespace is stripped, then an optional sign must be followed
by a nonempty run of digits. -/
def pyInt? (s : String) : Option Int :=
  let cs := ((s.data.dropWhile Char.isWhitespace).reverse.dropWhile
    Char.isWhitespace).reverse
  match cs with
  | [] => none
  | ('-') :: ds =>
    if ds = [] then none else (parseDigitsAux ds 0).map (fun n => -(n : Int))
  | ('+') :: ds =>
    if ds = [] then none else (parseDigitsAux ds 0).map (fun n => (n : Int))
  | ds => (parseDigitsAux ds 0).map (fun n => (n : Int))

/-- Step 5, second half: `df1['domainId'].astype(int)`. pandas raises
`ValueError: invalid literal for int() with base 10: '<token>'` at the first
token that is not an integer literal; otherwise every token is converted. -/
def parseAll : List TokenRow → Except String (List TaxonomyRow)
  | [] => .ok []
  | r :: rs =>
    match pyInt? r.token with
    | none => .error ("invalid literal for int() with base 10: '" ++ r.token ++ "'")
    | some d =>
      match parseAll rs with
      | .error e => .error e
      | .ok out => .ok (⟨r.question_code, r.subdomain_id, d⟩ :: out)

/-- The whole taxonomy resolver, steps 2-5 of `WGK.py` `main`: from the
mapping, item and subdomain relations to the exploded integer taxonomy
table, or the `ValueError` message when a domain token cannot be converted
(in particular when a question resolves to no subdomain or its subdomain
has no domain entry, in which case the token is the string "nan"). -/
def resolveTaxonomy (mapping : List String) (items : List ItemRow)
    (subs : List SubdomainRow) : Except String (List TaxonomyRow) :=
  parseAll (explodeDomains (annotatedDF mapping items subs))

/-- A row of the wide response table (`transposed_data.csv`, `df4`):
`employee_id`, `team`, then one (question code, nullable score) cell per
question column. -/
structure WideRow where
  employee_id : String
  team : String
  answers : List (String × Option ℚ)
deriving DecidableEq

/-- One long-format response record, as produced by
`df4.melt(id_vars=['employee_id','team'], ...)`. -/
structure ResponseRecord where
  employee_id : String
  team : String
  question_code : String
  score : Option ℚ
deriving DecidableEq

/-- Step 6 melt: one record per (response row, question column) cell.
pandas emits the records column-major rather than row-major; the two orders
are permutations of each other and no downstream value depends on the
order (the grouped statistics are proved order-invariant below). -/
def melt (rows : List WideRow) : List ResponseRecord :=
  rows.flatMap (fun w => w.answers.map (fun a => ⟨w.employee_id, w.team, a.1, a.2⟩))

/-- A melted record annotated with its taxonomy entry, the shape of
`df_long`; `subdomain_id` and `domainId` are missing when the question code
has no taxonomy row. -/
structure AnnotatedRow where
  employee_id : String
  team : String
  question_code : String
  score : Option ℚ
  subdomain_id : Option Int
  domainId : Option Int
deriving DecidableEq

/-- Step 6 merge: the left merge of the melted records with
`df1[['question_code','subdomain_id','domainId']]` on `question_code`. A
record whose question has N taxonomy rows is duplicated into N annotated
rows; a record whose question has none keeps missing taxonomy fields. -/
def joinTaxonomy (recs : List ResponseRecord) (tax : List TaxonomyRow) :
    List AnnotatedRow :=
  recs.flatMap (fun r =>
    if tax.filter (fun t => decide (t.question_code = r.question_code)) = [] then
      [⟨r.employee_id, r.team, r.question_code, r.score, none, none⟩]
    else (tax.filter (fun t => decide (t.question_code = r.question_code))).map
      (fun t =>
        ⟨r.employee_id, r.team, r.question_code, r.score, t.subdomain_id, some t.domainId⟩))

/-- The fixed 32-item reverse-coded question set of step 6a
(`reverse_items` in `WGK.py`). -/
def reverse_items : List String :=
  ["ZT101", "ZT102", "ZT103", "ZT13", "ZT14", "ZT15", "ZT16", "ZT18", "ZT19",
   "ZT20", "ZT21", "ZT22", "ZT23", "ZT24", "ZT25", "ZT26", "ZT28", "ZT29",
   "ZT30", "ZT33", "ZT34", "ZT4", "ZT43", "ZT60", "ZT70", "ZT74", "ZT78",
   "ZT79", "ZT80", "ZT81", "ZT85", "ZT89"]

/-- The reverse-coding transform of step 6a: `score ↦ 11 - score`. -/
def reverseScore (s : ℚ) : ℚ := 11 - s

/-- Step 6a applied to the annotated long table (`df_long`), where
`WGK.py` performs it: rows whose question code is in `reverse_items` get
`11 - score` (a missing score stays missing, as `11 - NaN` is `NaN`); all
other rows are untouched. -/
def applyReverseLong (rows : List AnnotatedRow) : List AnnotatedRow :=
  rows.map (fun r =>
    if r.question_code ∈ reverse_items then
      { r with score := r.score.map reverseScore }
    else r)

/-- The same per-record transform on bare melted records (before the
taxonomy join); used to state that reverse coding commutes with the join. -/
def applyReverseRecords (rows : List ResponseRecord) : List ResponseRecord :=
  rows.map (fun r =>
    if r.question_code ∈ reverse_items then
      { r with score := r.score.map reverseScore }
    else r)

/-- The long table `df_long` of `WGK.py` after step 6a: melt, taxonomy
join, then reverse coding. -/
def dfLong (wide : List WideRow) (tax : List TaxonomyRow) : List AnnotatedRow :=
  applyReverseLong (joinTaxonomy (melt wide) tax)

/-- Linear-interpolation quantile of a sorted nonempty list, the pandas
default (`interpolation='linear'`): the value at fractional rank
`r = p * (n - 1)` is `x_lo + (x_hi - x_lo) * (r - lo)` with `lo = ⌊r⌋` and
`hi = ⌈r⌉`. -/
def quantileSorted (xs : List ℚ) (p : ℚ) : ℚ :=
  let r : ℚ := p * ((xs.length - 1 : ℕ) : ℚ)
  let lo : ℕ := ⌊r⌋.toNat
  let hi : ℕ := ⌈r⌉.toNat
  let x0 := xs.getD lo 0
  let x1 := xs.getD hi 0
  x0 + (x1 - x0) * (r - (lo : ℚ))

/-- pandas `Series.quantile(p)`: sort the (non-null) values and interpolate
linearly; undefined on an empty series. -/
def quantile (xs : List ℚ) (p : ℚ) : Option ℚ :=
  if xs = [] then none else some (quantileSorted (xs.insertionSort (· ≤ ·)) p)

/-- pandas `'median'` aggregation: the 0.5 quantile (`x.quantile(0.5)` in
step 9 computes the same value). -/
def median (xs : List ℚ) : Option ℚ := quantile xs (1/2)

/-- pandas `'mean'` aggregation: arithmetic mean of the non-null values,
undefined on an empty series. -/
def mean (xs : List ℚ) : Option ℚ :=
  if xs = [] then none else some (xs.sum / (xs.length : ℚ))

/-- The square of pandas `'std'`: the unbiased sample variance with the
default `ddof=1`, undefined (pandas `NaN`) for series of fewer than two
values. The standard deviation itself is `Real.sqrt` of this value, so it
is defined exactly when the variance is. -/
def sampleVar (xs : List ℚ) : Option ℚ :=
  if xs.length ≤ 1 then none
  else
    some ((xs.map (fun x => (x - xs.sum / (xs.length : ℚ)) ^ 2)).sum /
      ((xs.length - 1 : ℕ) : ℚ))

/-- The `iqr` helper of `WGK.py`: `x.quantile(0.75) - x.quantile(0.25)`. -/
def iqr (xs : List ℚ) : Option ℚ :=
  match quantile xs (3/4), quantile xs (1/4) with
  | some q3, some q1 => some (q3 - q1)
  | _, _ => none

/-- The non-null scores of one subdomain-level aggregation group of step 7:
the rows of `df_long` with the given `team`, `domainId` and `subdomain_id`.
pandas `groupby(['team','domainId','subdomain_id'])` keys on non-null
values only (`dropna=True`), so a row with a missing taxonomy field belongs
to no group, and the aggregations drop null scores. -/
def groupScoresVals (rows : List AnnotatedRow) (team : String) (dom sub : Int) :
    List ℚ :=
  (rows.filter (fun r =>
    decide (r.team = team ∧ r.domainId = some dom ∧ r.subdomain_id = some sub))).filterMap
    (fun r => r.score)

/-- The non-null scores of one domain-level aggregation group of step 9:
the rows of `df_long` with the given `team` and `domainId`, across all
subdomains. -/
def domainScoresVals (rows : List AnnotatedRow) (team : String) (dom : Int) :
    List ℚ :=
  (rows.filter (fun r =>
    decide (r.team = team ∧ r.domainId = some dom))).filterMap (fun r => r.score)

/-- A concrete `df_long` whose single aggregation group carries the spec
fixed dataset [2,4,4,4,5,5,7,9]; used to instantiate the grouped-statistics
theorems. -/
def sampleRows : List AnnotatedRow :=
  [2, 4, 4, 4, 5, 5, 7, 9].map
    (fun v => ⟨"e1", "T", "Q1", some v, some 1, some 1⟩)

/-- Sorting a list of rationals is determined by its multiset of elements:
permuted inputs sort to the same list. -/
lemma insertionSort_eq_of_perm {xs ys : List ℚ} (h : xs.Perm ys) :
    xs.insertionSort (· ≤ ·) = ys.insertionSort (· ≤ ·) :=
  List.eq_of_perm_of_sorted
    ((List.perm_insertionSort _ xs).trans (h.trans (List.perm_insertionSort _ ys).symm))
    (List.sorted_insertionSort _ xs) (List.sorted_insertionSort _ ys)

/-- `quantile` only depends on the multiset of values. -/
lemma quantile_perm {xs ys : List ℚ} (h : xs.Perm ys) (p : ℚ) :
    quantile xs p = quantile ys p := by
  unfold quantile
  rcases eq_or_ne xs [] with rfl | hne
  · rw [← h.nil_eq]
  · have hys : ys ≠ [] := fun hy => hne (by rw [hy] at h; exact h.eq_nil)
    rw [if_neg hne, if_neg hys, insertionSort_eq_of_perm h]

/-- `mean` only depends on the multiset of values. -/
lemma mean_perm {xs ys : List ℚ} (h : xs.Perm ys) : mean xs = mean ys := by
  unfold mean
  rcases eq_or_ne xs [] with rfl | hne
  · rw [← h.nil_eq]
  · have hys : ys ≠ [] := fun hy => hne (by rw [hy] at h; exact h.eq_nil)
    rw [if_neg hne, if_neg hys, h.sum_eq, h.length_eq]

/-- `sampleVar` only depends on the multiset of values. -/
lemma sampleVar_perm {xs ys : List ℚ} (h : xs.Perm ys) : sampleVar xs = sampleVar ys := by
  unfold sampleVar
  rw [h.length_eq, h.sum_eq, (h.map _).sum_eq]

/-- `iqr` only depends on the multiset of values. -/
lemma iqr_perm {xs ys : List ℚ} (h : xs.Perm ys) : iqr xs = iqr ys := by
  unfold iqr
  rw [quantile_perm h, quantile_perm h]

/-- Permuting `df_long` permutes every subdomain-level group's score list. -/
lemma groupScoresVals_perm {rows rows' : List AnnotatedRow} (h : rows.Perm rows')
    (team : String) (dom sub : Int) :
    (groupScoresVals rows team dom sub).Perm (groupScoresVals rows' team dom sub) :=
  (h.filter _).filterMap _

/-- Permuting `df_long` permutes every domain-level group's score list. -/
lemma domainScoresVals_perm {rows rows' : List AnnotatedRow} (h : rows.Perm rows')
    (team : String) (dom : Int) :
    (domainScoresVals rows team dom).Perm (domainScoresVals rows' team dom) :=
  (h.filter _).filterMap _

/-- Evaluation form of `quantileSorted` once the floor and ceiling of the
fractional rank are known. -/
lemma quantileSorted_eval (xs : List ℚ) (p : ℚ) (lo hi : ℕ)
    (hlo : ⌊p * ((xs.length - 1 : ℕ) : ℚ)⌋ = (lo : ℤ))
    (hhi : ⌈p * ((xs.length - 1 : ℕ) : ℚ)⌉ = (hi : ℤ)) :
    quantileSorted xs p =
      xs.getD lo 0 +
        (xs.getD hi 0 - xs.getD lo 0) * (p * ((xs.length - 1 : ℕ) : ℚ) - (lo : ℚ)) := by
  simp only [quantileSorted, hlo, hhi, Int.toNat_ofNat]

/-- The spec fixed dataset, already sorted. -/
lemma sort_fixed8 :
    List.insertionSort (· ≤ ·) ([2, 4, 4, 4, 5, 5, 7, 9] : List ℚ) =
      [2, 4, 4, 4, 5, 5, 7, 9] := by
  simp [List.insertionSort, List.orderedInsert]
  norm_num

/-- Median of the fixed dataset: rank 3.5, interpolated between 4 and 5. -/
lemma quantile_fixed8_median :
    quantile ([2, 4, 4, 4, 5, 5, 7, 9] : List ℚ) (1/2) = some (9/2) := by
  rw [quantile, if_neg (by simp), sort_fixed8,
    quantileSorted_eval _ _ 3 4 (by rw [Int.floor_eq_iff] <;> norm_num)
      (by rw [Int.ceil_eq_iff] <;> norm_num)]
  norm_num [List.getD]

/-- Upper quartile of the fixed dataset: rank 5.25, interpolated between
5 and 7. -/
lemma quantile_fixed8_q3 :
    quantile ([2, 4, 4, 4, 5, 5, 7, 9] : List ℚ) (3/4) = some (11/2) := by
  rw [quantile, if_neg (by simp), sort_fixed8,
    quantileSorted_eval _ _ 5 6 (by rw [Int.floor_eq_iff] <;> norm_num)
      (by rw [Int.ceil_eq_iff] <;> norm_num)]
  norm_num [List.getD]

/-- Lower quartile of the fixed dataset: rank 1.75, interpolated between
4 and 4. -/
lemma quantile_fixed8_q1 :
    quantile ([2, 4, 4, 4, 5, 5, 7, 9] : List ℚ) (1/4) = some 4 := by
  rw [quantile, if_neg (by simp), sort_fixed8,
    quantileSorted_eval _ _ 1 2 (by rw [Int.floor_eq_iff] <;> norm_num)
      (by rw [Int.ceil_eq_iff] <;> norm_num)]
  norm_num [List.getD]

/-- Mean of the fixed dataset. -/
lemma mean_fixed8 : mean ([2, 4, 4, 4, 5, 5, 7, 9] : List ℚ) = some 5 := by
  rw [mean, if_neg (by simp)]
  norm_num

/-- Sample variance of the fixed dataset (so its standard deviation is
`√(32/7) ≈ 2.138`). -/
lemma sampleVar_fixed8 :
    sampleVar ([2, 4, 4, 4, 5, 5, 7, 9] : List ℚ) = some (32/7) := by
  rw [sampleVar, if_neg (by norm_num)]
  norm_num

/-- Any quantile of a one-element series is that element. -/
lemma quantile_singleton (x p : ℚ) : quantile [x] p = some x := by
  rw [quantile, if_neg (by simp)]
  have hs : List.insertionSort (· ≤ ·) [x] = [x] := rfl
  rw [hs, quantileSorted_eval _ _ 0 0 (by norm_num) (by norm_num)]
  simp [List.getD]

/-- The resolver handles each mapping row independently: peeling the first
mapping row splits its pre-explode state into the one-question block and
the rest. -/
lemma annotatedDF_cons (q : String) (m : List String) (items : List ItemRow)
    (subs : List SubdomainRow) :
    annotatedDF (q :: m) items subs =
      annotatedDF [q] items subs ++ annotatedDF m items subs := by
  simp [annotatedDF, mergeItems, fillManual, mergeSubdomains, List.flatMap_cons,
    List.map_append, List.flatMap_append]

/-- Exploding distributes over appended row blocks. -/
lemma explodeDomains_append (a b : List PreRow) :
    explodeDomains (a ++ b) = explodeDomains a ++ explodeDomains b := by
  simp [explodeDomains, List.flatMap_append]

/-- A token of the exploded resolver state comes from the one-question
block of some mapping entry. -/
lemma tokens_decomp {m : List String} {items : List ItemRow}
    {subs : List SubdomainRow} {x : TokenRow} :
    x ∈ explodeDomains (annotatedDF m items subs) ↔
      ∃ q ∈ m, x ∈ explodeDomains (annotatedDF [q] items subs) := by
  induction m with
  | nil => simp [annotatedDF, mergeItems, fillManual, mergeSubdomains, explodeDomains]
  | cons q' m' ih =>
    rw [annotatedDF_cons, explodeDomains_append]
    simp [ih]

/-- Every pair produced by the item merge carries a question code of the
mapping. -/
lemma mem_mergeItems {m : List String} {items : List ItemRow}
    {p : String × Option Int} (hp : p ∈ mergeItems m items) : p.1 ∈ m := by
  unfold mergeItems at hp
  rw [List.mem_flatMap] at hp
  obtain ⟨q, hq, hpq⟩ := hp
  split at hpq
  · simp only [List.mem_singleton] at hpq
    rw [hpq]
    exact hq
  · rw [List.mem_map] at hpq
    obtain ⟨r, _, hr⟩ := hpq
    rw [← hr]
    exact hq

/-- The manual fill keeps each row's question code. -/
lemma mem_fillManual {rows : List (String × Option Int)} {p : String × Option Int}
    (hp : p ∈ fillManual rows) : ∃ p' ∈ rows, p.1 = p'.1 := by
  unfold fillManual at hp
  rw [List.mem_map] at hp
  obtain ⟨p', hp', he⟩ := hp
  exact ⟨p', hp', by rw [← he]⟩

/-- The subdomain merge keeps each row's question code. -/
lemma mem_mergeSubdomains {rows : List (String × Option Int)}
    {subs : List SubdomainRow} {r : PreRow} (hr : r ∈ mergeSubdomains rows subs) :
    ∃ p ∈ rows, r.question_code = p.1 := by
  unfold mergeSubdomains at hr
  rw [List.mem_flatMap] at hr
  obtain ⟨p, hp, hrp⟩ := hr
  refine ⟨p, hp, ?_⟩
  split at hrp
  · simp only [List.mem_singleton] at hrp
    rw [hrp]
  · rw [List.mem_map] at hrp
    obtain ⟨s, _, hs⟩ := hrp
    rw [← hs]

/-- Exploding keeps each row's question code. -/
lemma mem_explodeDomains {rows : List PreRow} {x : TokenRow}
    (hx : x ∈ explodeDomains rows) : ∃ r ∈ rows, x.question_code = r.question_code := by
  unfold explodeDomains at hx
  rw [List.mem_flatMap] at hx
  obtain ⟨r, hr, hxr⟩ := hx
  rw [List.mem_map] at hxr
  obtain ⟨t, _, ht⟩ := hxr
  exact ⟨r, hr, by rw [← ht]⟩

/-- Every token of a one-question block carries that question code. -/
lemma tokens_singleton_code {q : String} {items : List ItemRow}
    {subs : List SubdomainRow} {x : TokenRow}
    (hx : x ∈ explodeDomains (annotatedDF [q] items subs)) : x.question_code = q := by
  obtain ⟨r, hr, hxr⟩ := mem_explodeDomains hx
  obtain ⟨p, hp, hrp⟩ := mem_mergeSubdomains hr
  obtain ⟨p', hp', hpp⟩ := mem_fillManual hp
  have := mem_mergeItems hp'
  simp only [List.mem_singleton] at this
  rw [hxr, hrp, hpp, this]

/-- One-question block of the item merge when the question has exactly one
matching item row. -/
lemma mergeItems_singleton_auto {q : String} {items : List ItemRow} {it : ItemRow}
    (hitem : items.filter (fun r => decide (r.code = q)) = [it]) :
    mergeItems [q] items = [(q, some it.subdomain_id)] := by
  unfold mergeItems
  simp only [List.flatMap_cons, List.flatMap_nil, List.append_nil]
  rw [hitem]
  simp

/-- One-question block of the item merge when the question has no matching
item row. -/
lemma mergeItems_singleton_none {q : String} {items : List ItemRow}
    (hitem : items.filter (fun r => decide (r.code = q)) = []) :
    mergeItems [q] items = [(q, none)] := by
  unfold mergeItems
  simp only [List.flatMap_cons, List.flatMap_nil, List.append_nil]
  rw [hitem]
  simp

/-- Subdomain merge of a single resolved row with exactly one matching
subdomain entry. -/
lemma mergeSubdomains_single_match {q : String} {s : Int}
    {subs : List SubdomainRow} {sr : SubdomainRow}
    (hsub : subs.filter (fun r => decide (some r.id = some s)) = [sr]) :
    mergeSubdomains [(q, some s)] subs = [⟨q, some s, some sr.domainId⟩] := by
  unfold mergeSubdomains
  simp only [List.flatMap_cons, List.flatMap_nil, List.append_nil]
  rw [hsub]
  simp

/-- Subdomain merge of a single unresolved row: the missing key matches no
subdomain entry, so the domain stays missing. -/
lemma mergeSubdomains_none {q : String} {subs : List SubdomainRow} :
    mergeSubdomains [(q, (none : Option Int))] subs = [⟨q, none, none⟩] := by
  have hf : subs.filter (fun s => decide (some s.id = (none : Option Int))) = [] :=
    List.filter_eq_nil_iff.mpr (fun a _ => by simp)
  unfold mergeSubdomains
  simp only [List.flatMap_cons, List.flatMap_nil, List.append_nil]
  rw [hf]
  simp

/-- Exploding a single row with a present domain string yields one token
per comma-separated piece. -/
lemma explodeDomains_single {q : String} {s : Option Int} {d : String} :
    explodeDomains [⟨q, s, some d⟩] = (splitComma d).map (fun t => ⟨q, s, t⟩) := by
  simp [explodeDomains, strOfOptDomain]

/-- A successful `astype(int)` preserves, question by question, the number
of rows. -/
lemma parseAll_ok_count {ts : List TokenRow} {rows : List TaxonomyRow}
    (h : parseAll ts = .ok rows) (q : String) :
    (rows.filter (fun r => decide (r.question_code = q))).length =
      (ts.filter (fun x => decide (x.question_code = q))).length := by
  induction ts generalizing rows with
  | nil =>
    cases h
    rfl
  | cons t ts' ih =>
    unfold parseAll at h
    cases hp : pyInt? t.token with
    | none => rw [hp] at h; cases h
    | some d =>
      rw [hp] at h
      cases hrec : parseAll ts' with
      | error e => rw [hrec] at h; cases h
      | ok out =>
        rw [hrec] at h
        injection h with h
        rw [← h]
        by_cases hq : t.question_code = q
        · simp [List.filter_cons, hq, ih hrec]
        · simp [List.filter_cons, hq, ih hrec]

/-- `astype(int)` fails with the `ValueError` message of some unparseable
token as soon as the token list holds any unparseable token. -/
lemma parseAll_error_of_mem {ts : List TokenRow} {x : TokenRow} (hx : x ∈ ts)
    (hbad : pyInt? x.token = none) :
    ∃ t, pyInt? t = none ∧
      parseAll ts = .error ("invalid literal for int() with base 10: '" ++ t ++ "'") := by
  induction ts with
  | nil => cases hx
  | cons t ts' ih =>
    cases hp : pyInt? t.token with
    | none => exact ⟨t.token, hp, by unfold parseAll; rw [hp]⟩
    | some d =>
      rcases List.mem_cons.mp hx with rfl | hx'
      · rw [hbad] at hp; cases hp
      · obtain ⟨u, hu, herr⟩ := ih hx'
        exact ⟨u, hu, by unfold parseAll; rw [hp, herr]⟩

/-- When a question code occurs exactly once in the mapping, the tokens the
resolver derives for it are exactly its one-question block. -/
lemma tokens_count_filter {m : List String} {items : List ItemRow}
    {subs : List SubdomainRow} {q : String} (hc : m.count q = 1) :
    ((explodeDomains (annotatedDF m items subs)).filter
        (fun x => decide (x.question_code = q))).length =
      (explodeDomains (annotatedDF [q] items subs)).length := by
  induction m with
  | nil => simp at hc
  | cons q' m' ih =>
    rw [annotatedDF_cons, explodeDomains_append, List.filter_append, List.length_append]
    by_cases hq : q' = q
    · subst hq
      have hc' : m'.count q' = 0 := by
        rw [List.count_cons] at hc
        simpa using hc
      have hnot : q' ∉ m' := List.count_eq_zero.mp hc'
      have hfull : (explodeDomains (annotatedDF [q'] items subs)).filter
          (fun x => decide (x.question_code = q')) =
            explodeDomains (annotatedDF [q'] items subs) :=
        List.filter_eq_self.mpr (fun x hx => by
          rw [tokens_singleton_code hx]
          simp)
      have hrest : (explodeDomains (annotatedDF m' items subs)).filter
          (fun x => decide (x.question_code = q')) = [] :=
        List.filter_eq_nil_iff.mpr (fun x hx => by
          obtain ⟨q'', hq'', hxq⟩ := tokens_decomp.mp hx
          rw [tokens_singleton_code hxq]
          simp
          intro he
          rw [he] at hq''
          exact hnot hq'')
      rw [hfull, hrest]
      simp
    · have hrest : (explodeDomains (annotatedDF [q'] items subs)).filter
          (fun x => decide (x.question_code = q)) = [] :=
        List.filter_eq_nil_iff.mpr (fun x hx => by
          rw [tokens_singleton_code hx]
          simp [hq])
      have hc' : m'.count q = 1 := by
        rw [List.count_cons] at hc
        simpa [show ¬ q' = q from hq, show (q' == q) = false from by
          simp [hq]] using hc
      rw [hrest, ih hc']
      simp

/-- A question of the mapping with neither an item match nor a manual
override makes the resolver fail: its missing domain becomes the token
"nan", which `astype(int)` cannot convert. -/
lemma resolve_unmapped_error {m : List String} {items : List ItemRow}
    {subs : List SubdomainRow} {q : String} (hq : q ∈ m)
    (hitem : items.filter (fun r => decide (r.code = q)) = [])
    (hman : List.lookup q manual_map = none) :
    ∃ t, pyInt? t = none ∧
      resolveTaxonomy m items subs =
        .error ("invalid literal for int() with base 10: '" ++ t ++ "'") := by
  have hblock : explodeDomains (annotatedDF [q] items subs) = [⟨q, none, "nan"⟩] := by
    unfold annotatedDF
    rw [mergeItems_singleton_none hitem,
      show fillManual [(q, (none : Option Int))] = [(q, List.lookup q manual_map)] from rfl,
      hman, mergeSubdomains_none]
    rfl
  have hmem : (⟨q, none, "nan"⟩ : TokenRow) ∈ explodeDomains (annotatedDF m items subs) :=
    tokens_decomp.mpr ⟨q, hq, by rw [hblock]; simp⟩
  exact parseAll_error_of_mem hmem rfl

/-- Subdomain merge of a single resolved row whose subdomain has no entry
in the subdomain relation: the left merge keeps a missing domain. -/
lemma mergeSubdomains_no_match {q : String} {s : Int} {subs : List SubdomainRow}
    (hsub : subs.filter (fun r => decide (some r.id = some s)) = []) :
    mergeSubdomains [(q, some s)] subs = [⟨q, some s, none⟩] := by
  unfold mergeSubdomains
  simp only [List.flatMap_cons, List.flatMap_nil, List.append_nil]
  rw [hsub]
  simp

/-- A question of the mapping whose resolved subdomain (its filled
one-question block) has no entry in the subdomain relation also makes the
resolver fail: the left merge leaves the domain missing, so it becomes the
token "nan", which `astype(int)` cannot convert. -/
lemma resolve_no_domain_error {m : List String} {items : List ItemRow}
    {subs : List SubdomainRow} {q : String} {s : Int} (hq : q ∈ m)
    (hblock : fillManual (mergeItems [q] items) = [(q, some s)])
    (hsub : subs.filter (fun r => decide (some r.id = some s)) = []) :
    ∃ t, pyInt? t = none ∧
      resolveTaxonomy m items subs =
        .error ("invalid literal for int() with base 10: '" ++ t ++ "'") := by
  have hb : explodeDomains (annotatedDF [q] items subs) = [⟨q, some s, "nan"⟩] := by
    unfold annotatedDF
    rw [hblock, mergeSubdomains_no_match hsub]
    rfl
  have hmem : (⟨q, some s, "nan"⟩ : TokenRow) ∈
      explodeDomains (annotatedDF m items subs) :=
    tokens_decomp.mpr ⟨q, hq, by rw [hb]; simp⟩
  exact parseAll_error_of_mem hmem rfl

/-- The merge-then-fill steps handle each mapping row independently. -/
lemma fillMerge_cons (q' : String) (m : List String) (items : List ItemRow) :
    fillManual (mergeItems (q' :: m) items) =
      fillManual (mergeItems [q'] items) ++ fillManual (mergeItems m items) := by
  simp [mergeItems, fillManual, List.flatMap_cons, List.map_append]

/-- A row of the filled merge comes from the one-question block of some
mapping entry. -/
lemma resolvedSubs_decomp {m : List String} {items : List ItemRow}
    {p : String × Option Int} :
    p ∈ fillManual (mergeItems m items) ↔
      ∃ q' ∈ m, p ∈ fillManual (mergeItems [q'] items) := by
  induction m with
  | nil => simp [mergeItems, fillManual]
  | cons q' m' ih =>
    rw [fillMerge_cons]
    simp [ih]

/-- Every row of a one-question filled block carries that question code. -/
lemma fillMerge_singleton_key {q : String} {items : List ItemRow}
    {p : String × Option Int} (hp : p ∈ fillManual (mergeItems [q] items)) :
    p.1 = q := by
  obtain ⟨p', hp', he⟩ := mem_fillManual hp
  have := mem_mergeItems hp'
  simp only [List.mem_singleton] at this
  rw [he, this]

/-- One-question filled block when the item merge resolved the question:
the manual table is not consulted. -/
lemma fillMerge_auto {q : String} {items : List ItemRow} {it : ItemRow}
    (hitem : items.filter (fun r => decide (r.code = q)) = [it]) :
    fillManual (mergeItems [q] items) = [(q, some it.subdomain_id)] := by
  rw [mergeItems_singleton_auto hitem]
  rfl

/-- One-question filled block when the item merge left the question
unresolved: the manual table decides. -/
lemma fillMerge_override {q : String} {items : List ItemRow}
    (hitem : items.filter (fun r => decide (r.code = q)) = []) :
    fillManual (mergeItems [q] items) = [(q, List.lookup q manual_map)] := by
  rw [mergeItems_singleton_none hitem]
  rfl

/-- The response join handles each melted record independently. -/
lemma joinTaxonomy_cons (r : ResponseRecord) (rs : List ResponseRecord)
    (tax : List TaxonomyRow) :
    joinTaxonomy (r :: rs) tax = joinTaxonomy [r] tax ++ joinTaxonomy rs tax := by
  simp [joinTaxonomy, List.flatMap_cons]

/-- Reverse coding distributes over appended long-table blocks. -/
lemma applyReverseLong_append (a b : List AnnotatedRow) :
    applyReverseLong (a ++ b) = applyReverseLong a ++ applyReverseLong b := by
  simp [applyReverseLong]

/-- Reverse coding on bare records distributes over cons. -/
lemma applyReverseRecords_cons (r : ResponseRecord) (rs : List ResponseRecord) :
    applyReverseRecords (r :: rs) =
      applyReverseRecords [r] ++ applyReverseRecords rs := by
  simp [applyReverseRecords]

/-- The response join distributes over appended record blocks. -/
lemma joinTaxonomy_append (a b : List ResponseRecord) (tax : List TaxonomyRow) :
    joinTaxonomy (a ++ b) tax = joinTaxonomy a tax ++ joinTaxonomy b tax := by
  simp [joinTaxonomy, List.flatMap_append]

/-- Reverse coding commutes with the taxonomy join on a single record: the
join duplicates the record per taxonomy match using only its question code,
which reverse coding never changes. -/
lemma reverse_join_single (r : ResponseRecord) (tax : List TaxonomyRow) :
    applyReverseLong (joinTaxonomy [r] tax) =
      joinTaxonomy (applyReverseRecords [r]) tax := by
  by_cases hm : r.question_code ∈ reverse_items
  · unfold applyReverseRecords applyReverseLong joinTaxonomy
    simp only [List.flatMap_cons, List.flatMap_nil, List.append_nil,
      List.map_cons, List.map_nil, if_pos hm]
    by_cases hf : tax.filter (fun t => decide (t.question_code = r.question_code)) = []
    · simp [hf, hm]
    · simp only [if_neg hf, List.map_map]
      refine List.map_congr_left ?_
      intro t _
      simp [hm]
  · unfold applyReverseRecords applyReverseLong joinTaxonomy
    simp only [List.flatMap_cons, List.flatMap_nil, List.append_nil,
      List.map_cons, List.map_nil, if_neg hm]
    by_cases hf : tax.filter (fun t => decide (t.question_code = r.question_code)) = []
    · simp [hf, hm]
    · simp only [if_neg hf, List.map_map]
      refine List.map_congr_left ?_
      intro t _
      simp [hm]

/-- C6: on any aggregation group whose scores are (a permutation of) the
fixed dataset [2,4,4,4,5,5,7,9], the aggregator of step 7 computes
median 4.5, mean 5.0, IQR = Q3 - Q1 = 5.5 - 4.0 = 1.5 by the
linear-interpolation percentile method, and a sample variance of 32/7, so
the sample standard deviation `√(32/7)` lies strictly between 2.138 and
2.139 (std ≈ 2.138). -/
theorem fixed_dataset_group_stats (rows : List AnnotatedRow) (team : String)
    (dom sub : Int)
    (h : (groupScoresVals rows team dom sub).Perm ([2, 4, 4, 4, 5, 5, 7, 9] : List ℚ)) :
    median (groupScoresVals rows team dom sub) = some (9/2) ∧
    mean (groupScoresVals rows team dom sub) = some 5 ∧
    iqr (groupScoresVals rows team dom sub) = some (3/2) ∧
    sampleVar (groupScoresVals rows team dom sub) = some (32/7) ∧
    (2138/1000 : ℝ) < Real.sqrt (32/7) ∧ Real.sqrt (32/7) < (2139/1000 : ℝ) := by
  refine ⟨?_, ?_, ?_, ?_, ?_, ?_⟩
  · rw [median, quantile_perm h, quantile_fixed8_median]
  · rw [mean_perm h, mean_fixed8]
  · rw [iqr_perm h]
    unfold iqr
    rw [quantile_fixed8_q3, quantile_fixed8_q1]
    norm_num
  · rw [sampleVar_perm h, sampleVar_fixed8]
  · rw [Real.lt_sqrt (by norm_num)]
    norm_num
  · rw [Real.sqrt_lt' (by norm_num)]
    norm_num

/-- Witness for C6 at a concrete `df_long` that carries the fixed dataset
in one group. -/
theorem fixed_dataset_group_stats_witness :
    median (groupScoresVals sampleRows ("T") 1 1) = some (9/2) ∧
    mean (groupScoresVals sampleRows ("T") 1 1) = some 5 ∧
    iqr (groupScoresVals sampleRows ("T") 1 1) = some (3/2) ∧
    sampleVar (groupScoresVals sampleRows ("T") 1 1) = some (32/7) ∧
    (2138/1000 : ℝ) < Real.sqrt (32/7) ∧ Real.sqrt (32/7) < (2139/1000 : ℝ) :=
  fixed_dataset_group_stats sampleRows ("T") 1 1
    (by rw [show groupScoresVals sampleRows ("T") 1 1 = [2, 4, 4, 4, 5, 5, 7, 9] from rfl])

/-- C7: an aggregation group holding exactly one non-null score `x` has
median and mean equal to `x`, an undefined (null) sample standard
deviation — its square, the sample variance, is `none` under the `ddof=1`
contract — and an IQR of zero. -/
theorem singleton_group_stats (rows : List AnnotatedRow) (team : String)
    (dom sub : Int) (x : ℚ)
    (h : groupScoresVals rows team dom sub = [x]) :
    median (groupScoresVals rows team dom sub) = some x ∧
    mean (groupScoresVals rows team dom sub) = some x ∧
    sampleVar (groupScoresVals rows team dom sub) = none ∧
    iqr (groupScoresVals rows team dom sub) = some 0 := by
  rw [h]
  refine ⟨quantile_singleton x (1/2), ?_, ?_, ?_⟩
  · rw [mean, if_neg (by simp)]
    simp
  · rw [sampleVar, if_pos (by simp)]
  · unfold iqr
    rw [quantile_singleton, quantile_singleton]
    simp

/-- Witness for C7 at a concrete one-row group. -/
theorem singleton_group_stats_witness :
    median (groupScoresVals [⟨"e1", "T", "Q1", some 7, some 1, some 1⟩] ("T") 1 1) = some 7 ∧
    mean (groupScoresVals [⟨"e1", "T", "Q1", some 7, some 1, some 1⟩] ("T") 1 1) = some 7 ∧
    sampleVar (groupScoresVals [⟨"e1", "T", "Q1", some 7, some 1, some 1⟩] ("T") 1 1) = none ∧
    iqr (groupScoresVals [⟨"e1", "T", "Q1", some 7, some 1, some 1⟩] ("T") 1 1) = some 0 :=
  singleton_group_stats [⟨"e1", "T", "Q1", some 7, some 1, some 1⟩] ("T") 1 1 7 rfl

/-- C8: the grouped statistics of steps 7 and 9 (median, IQR, mean and the
variance underlying the standard deviation, at both subdomain and domain
granularity) are invariant under any permutation of the rows of `df_long`:
they depend only on each group's multiset of scores. -/
theorem grouped_stats_perm_invariant (rows rows' : List AnnotatedRow)
    (h : rows.Perm rows') (team : String) (dom sub : Int) :
    median (groupScoresVals rows team dom sub) = median (groupScoresVals rows' team dom sub) ∧
    iqr (groupScoresVals rows team dom sub) = iqr (groupScoresVals rows' team dom sub) ∧
    mean (groupScoresVals rows team dom sub) = mean (groupScoresVals rows' team dom sub) ∧
    sampleVar (groupScoresVals rows team dom sub) = sampleVar (groupScoresVals rows' team dom sub) ∧
    median (domainScoresVals rows team dom) = median (domainScoresVals rows' team dom) ∧
    iqr (domainScoresVals rows team dom) = iqr (domainScoresVals rows' team dom) ∧
    mean (domainScoresVals rows team dom) = mean (domainScoresVals rows' team dom) ∧
    sampleVar (domainScoresVals rows team dom) = sampleVar (domainScoresVals rows' team dom) := by
  have hg := groupScoresVals_perm h team dom sub
  have hd := domainScoresVals_perm h team dom
  exact ⟨quantile_perm hg _, iqr_perm hg, mean_perm hg, sampleVar_perm hg,
    quantile_perm hd _, iqr_perm hd, mean_perm hd, sampleVar_perm hd⟩

/-- Witness for C8 at a concrete two-row `df_long` and its swap. -/
theorem grouped_stats_perm_invariant_witness :
    median (groupScoresVals
        [⟨"e2", "T", "Q1", some 4, some 1, some 1⟩, ⟨"e1", "T", "Q1", some 2, some 1, some 1⟩]
        ("T") 1 1) =
      median (groupScoresVals
        [⟨"e1", "T", "Q1", some 2, some 1, some 1⟩, ⟨"e2", "T", "Q1", some 4, some 1, some 1⟩]
        ("T") 1 1) ∧
    iqr (groupScoresVals
        [⟨"e2", "T", "Q1", some 4, some 1, some 1⟩, ⟨"e1", "T", "Q1", some 2, some 1, some 1⟩]
        ("T") 1 1) =
      iqr (groupScoresVals
        [⟨"e1", "T", "Q1", some 2, some 1, some 1⟩, ⟨"e2", "T", "Q1", some 4, some 1, some 1⟩]
        ("T") 1 1) ∧
    mean (groupScoresVals
        [⟨"e2", "T", "Q1", some 4, some 1, some 1⟩, ⟨"e1", "T", "Q1", some 2, some 1, some 1⟩]
        ("T") 1 1) =
      mean (groupScoresVals
        [⟨"e1", "T", "Q1", some 2, some 1, some 1⟩, ⟨"e2", "T", "Q1", some 4, some 1, some 1⟩]
        ("T") 1 1) ∧
    sampleVar (groupScoresVals
        [⟨"e2", "T", "Q1", some 4, some 1, some 1⟩, ⟨"e1", "T", "Q1", some 2, some 1, some 1⟩]
        ("T") 1 1) =
      sampleVar (groupScoresVals
        [⟨"e1", "T", "Q1", some 2, some 1, some 1⟩, ⟨"e2", "T", "Q1", some 4, some 1, some 1⟩]
        ("T") 1 1) ∧
    median (domainScoresVals
        [⟨"e2", "T", "Q1", some 4, some 1, some 1⟩, ⟨"e1", "T", "Q1", some 2, some 1, some 1⟩]
        ("T") 1) =
      median (domainScoresVals
        [⟨"e1", "T", "Q1", some 2, some 1, some 1⟩, ⟨"e2", "T", "Q1", some 4, some 1, some 1⟩]
        ("T") 1) ∧
    iqr (domainScoresVals
        [⟨"e2", "T", "Q1", some 4, some 1, some 1⟩, ⟨"e1", "T", "Q1", some 2, some 1, some 1⟩]
        ("T") 1) =
      iqr (domainScoresVals
        [⟨"e1", "T", "Q1", some 2, some 1, some 1⟩, ⟨"e2", "T", "Q1", some 4, some 1, some 1⟩]
        ("T") 1) ∧
    mean (domainScoresVals
        [⟨"e2", "T", "Q1", some 4, some 1, some 1⟩, ⟨"e1", "T", "Q1", some 2, some 1, some 1⟩]
        ("T") 1) =
      mean (domainScoresVals
        [⟨"e1", "T", "Q1", some 2, some 1, some 1⟩, ⟨"e2", "T", "Q1", some 4, some 1, some 1⟩]
        ("T") 1) ∧
    sampleVar (domainScoresVals
        [⟨"e2", "T", "Q1", some 4, some 1, some 1⟩, ⟨"e1", "T", "Q1", some 2, some 1, some 1⟩]
        ("T") 1) =
      sampleVar (domainScoresVals
        [⟨"e1", "T", "Q1", some 2, some 1, some 1⟩, ⟨"e2", "T", "Q1", some 4, some 1, some 1⟩]
        ("T") 1) :=
  grouped_stats_perm_invariant
    [⟨"e2", "T", "Q1", some 4, some 1, some 1⟩, ⟨"e1", "T", "Q1", some 2, some 1, some 1⟩]
    [⟨"e1", "T", "Q1", some 2, some 1, some 1⟩, ⟨"e2", "T", "Q1", some 4, some 1, some 1⟩]
    (List.Perm.swap _ _ _) ("T") 1 1

/-- C9: the reverse-coding transform `s ↦ 11 - s` of step 6a is an
involution on the 1..10 score scale: applying it twice restores the
original score. -/
theorem reverseScore_involution (s : ℚ) (h1 : 1 ≤ s) (h10 : s ≤ 10) :
    reverseScore (reverseScore s) = s := by
  unfold reverseScore
  ring

/-- Witness for C9 at score 3. -/
theorem reverseScore_involution_witness :
    (1 : ℚ) ≤ 3 ∧ (3 : ℚ) ≤ 10 ∧ reverseScore (reverseScore 3) = 3 :=
  ⟨by norm_num, by norm_num, reverseScore_involution 3 (by norm_num) (by norm_num)⟩

/-- Counterexample to C1 as stated. First, the explode of step 5 does not
deduplicate: a subdomain whose domain list is "3,3" (one distinct domain
id) yields two output rows for its question, not one. Second, a question
with no resolved subdomain yields no output at all: the resolver raises a
`ValueError` on the token "nan" instead of producing zero rows. -/
theorem taxonomy_multiplicity_counterexample :
    resolveTaxonomy ["Q1"] [⟨"Q1", 1⟩] [⟨1, "3,3"⟩] =
      .ok [⟨"Q1", some 1, 3⟩, ⟨"Q1", some 1, 3⟩] ∧
    (([⟨"Q1", some 1, 3⟩, ⟨"Q1", some 1, 3⟩] : List TaxonomyRow).filter
        (fun r => decide (r.question_code = "Q1"))).length = 2 ∧
    ((splitComma ("3,3")).filterMap pyInt?).dedup.length = 1 ∧
    resolveTaxonomy ["Q9"] [] [] =
      .error ("invalid literal for int() with base 10: 'nan'") :=
  ⟨rfl, rfl, by decide, rfl⟩

/-- C1 as amended: for a question occurring once in the mapping with a
unique item match and a unique subdomain entry, a successful resolver run
emits one TaxonomyRow per entry of the comma-separated domain list,
counted with multiplicity (not per distinct domain id); and both failure
modes of the zero-row case raise instead of contributing zero rows — a
question with neither an item match nor a manual override (no resolved
subdomain), a question whose item-resolved subdomain has no entry in the
subdomain relation, and a question whose override-resolved subdomain has
no entry in the subdomain relation all make the resolver fail with an
integer-conversion error. -/
theorem taxonomy_multiplicity_amended (m : List String) (items : List ItemRow)
    (subs : List SubdomainRow) (q : String) :
    (∀ (rows : List TaxonomyRow) (it : ItemRow) (sr : SubdomainRow),
      resolveTaxonomy m items subs = .ok rows →
      m.count q = 1 →
      items.filter (fun r => decide (r.code = q)) = [it] →
      subs.filter (fun r => decide (some r.id = some it.subdomain_id)) = [sr] →
      (rows.filter (fun r => decide (r.question_code = q))).length =
        (splitComma sr.domainId).length) ∧
    (q ∈ m →
      items.filter (fun r => decide (r.code = q)) = [] →
      List.lookup q manual_map = none →
      ∃ t, pyInt? t = none ∧
        resolveTaxonomy m items subs =
          .error ("invalid literal for int() with base 10: '" ++ t ++ "'")) ∧
    (∀ it : ItemRow, q ∈ m →
      items.filter (fun r => decide (r.code = q)) = [it] →
      subs.filter (fun r => decide (some r.id = some it.subdomain_id)) = [] →
      ∃ t, pyInt? t = none ∧
        resolveTaxonomy m items subs =
          .error ("invalid literal for int() with base 10: '" ++ t ++ "'")) ∧
    (∀ v : Int, q ∈ m →
      items.filter (fun r => decide (r.code = q)) = [] →
      List.lookup q manual_map = some v →
      subs.filter (fun r => decide (some r.id = some v)) = [] →
      ∃ t, pyInt? t = none ∧
        resolveTaxonomy m items subs =
          .error ("invalid literal for int() with base 10: '" ++ t ++ "'")) := by
  refine ⟨?_, ?_, ?_, ?_⟩
  · intro rows it sr hok hc hitem hsub
    unfold resolveTaxonomy at hok
    rw [parseAll_ok_count hok q, tokens_count_filter hc]
    have hblock : annotatedDF [q] items subs =
        [⟨q, some it.subdomain_id, some sr.domainId⟩] := by
      unfold annotatedDF
      rw [show fillManual (mergeItems [q] items) = [(q, some it.subdomain_id)] from
        fillMerge_auto hitem, mergeSubdomains_single_match hsub]
    rw [hblock, explodeDomains_single, List.length_map]
  · intro hq hitem hman
    exact resolve_unmapped_error hq hitem hman
  · intro it hq hitem hsub
    exact resolve_no_domain_error hq (fillMerge_auto hitem) hsub
  · intro v hq hitem hman hsub
    exact resolve_no_domain_error hq (by rw [fillMerge_override hitem, hman]) hsub

/-- Witness for C1 as amended: a two-domain list "3,4" yields exactly two
rows for its question; an unmapped question makes the resolver fail; a
question item-resolved to subdomain 9 with no subdomain entry makes it
fail; and ZT117, override-resolved to subdomain 7 with no subdomain entry,
makes it fail. -/
theorem taxonomy_multiplicity_amended_witness :
    ((([⟨"Q1", some 1, 3⟩, ⟨"Q1", some 1, 4⟩] : List TaxonomyRow).filter
        (fun r => decide (r.question_code = "Q1"))).length =
      (splitComma ("3,4")).length) ∧
    (∃ t, pyInt? t = none ∧
      resolveTaxonomy ["QX"] [] [] =
        .error ("invalid literal for int() with base 10: '" ++ t ++ "'")) ∧
    (∃ t, pyInt? t = none ∧
      resolveTaxonomy ["Q1"] [⟨"Q1", 9⟩] [] =
        .error ("invalid literal for int() with base 10: '" ++ t ++ "'")) ∧
    (∃ t, pyInt? t = none ∧
      resolveTaxonomy ["ZT117"] [] [] =
        .error ("invalid literal for int() with base 10: '" ++ t ++ "'")) :=
  ⟨(taxonomy_multiplicity_amended ["Q1"] [⟨"Q1", 1⟩] [⟨1, "3,4"⟩] ("Q1")).1
      [⟨"Q1", some 1, 3⟩, ⟨"Q1", some 1, 4⟩] ⟨"Q1", 1⟩ ⟨1, "3,4"⟩ rfl rfl rfl rfl,
   (taxonomy_multiplicity_amended ["QX"] [] [] ("QX")).2.1 (by simp) rfl rfl,
   (taxonomy_multiplicity_amended ["Q1"] [⟨"Q1", 9⟩] [] ("Q1")).2.2.1
      ⟨"Q1", 9⟩ (by simp) rfl rfl,
   (taxonomy_multiplicity_amended ["ZT117"] [] [] ("ZT117")).2.2.2
      7 (by simp) rfl rfl rfl⟩

/-- C2: in `df_long`, reverse coding is applied positionally, exactly once
per record and before the grouped aggregations (which consume the
transformed table): the final long table is related row by row to the
joined table, each record whose question code is in the fixed 32-item
reverse set carrying `11 - score`, every other record unchanged. -/
theorem reverse_coding_per_record (wide : List WideRow) (tax : List TaxonomyRow) :
    reverse_items.length = 32 ∧
    List.Forall₂ (fun pre post =>
        post.question_code = pre.question_code ∧
        (pre.question_code ∈ reverse_items →
          post = { pre with score := pre.score.map reverseScore }) ∧
        (pre.question_code ∉ reverse_items → post = pre))
      (joinTaxonomy (melt wide) tax) (dfLong wide tax) := by
  refine ⟨rfl, ?_⟩
  unfold dfLong applyReverseLong
  generalize joinTaxonomy (melt wide) tax = l
  induction l with
  | nil => exact List.Forall₂.nil
  | cons a l ih =>
    rw [List.map_cons]
    refine List.Forall₂.cons ?_ ih
    by_cases hm : a.question_code ∈ reverse_items
    · simp [hm]
    · simp [hm]

/-- Counterexample to C3 as stated: a question of the mapping with neither
an item-table entry nor a manual override does not flow through as a null
row — the pipeline fails, because the missing domain becomes the string
"nan" and `astype(int)` raises on it. -/
theorem unmapped_question_counterexample :
    List.lookup ("ZZ9") manual_map = none ∧
    resolveTaxonomy ["ZZ9"] [] [] =
      .error ("invalid literal for int() with base 10: 'nan'") :=
  ⟨rfl, rfl⟩

/-- C3 as amended: a question of the mapping with neither an automatic nor
a manual mapping makes the resolver fail (no null row is produced), while
rows of `df_long` whose taxonomy annotation is null — which arise from
response columns absent from the mapping — are excluded from every grouped
statistic: dropping them changes no group's scores. -/
theorem unmapped_question_amended (m : List String) (items : List ItemRow)
    (subs : List SubdomainRow) (q : String) (rows : List AnnotatedRow)
    (team : String) (dom sub : Int) :
    (q ∈ m →
      items.filter (fun r => decide (r.code = q)) = [] →
      List.lookup q manual_map = none →
      ∃ e, resolveTaxonomy m items subs = .error e) ∧
    groupScoresVals rows team dom sub =
      groupScoresVals (rows.filter (fun r =>
        decide (¬ r.subdomain_id = none ∧ ¬ r.domainId = none))) team dom sub ∧
    domainScoresVals rows team dom =
      domainScoresVals (rows.filter (fun r =>
        decide (¬ r.domainId = none))) team dom := by
  refine ⟨?_, ?_, ?_⟩
  · intro hq hitem hman
    obtain ⟨t, _, herr⟩ := @resolve_unmapped_error m items subs q hq hitem hman
    exact ⟨_, herr⟩
  · unfold groupScoresVals
    congr 1
    rw [List.filter_filter]
    refine (List.filter_congr ?_)
    intro r _
    by_cases hG : r.team = team ∧ r.domainId = some dom ∧ r.subdomain_id = some sub
    · obtain ⟨h1, h2, h3⟩ := hG
      simp [h1, h2, h3]
    · simp only [decide_eq_false hG, Bool.false_eq]
      by_cases hN : ¬ r.subdomain_id = none ∧ ¬ r.domainId = none
      · simp [hN, hG]
      · simp [hN]
  · unfold domainScoresVals
    congr 1
    rw [List.filter_filter]
    refine (List.filter_congr ?_)
    intro r _
    by_cases hG : r.team = team ∧ r.domainId = some dom
    · obtain ⟨h1, h2⟩ := hG
      simp [h1, h2]
    · simp only [decide_eq_false hG, Bool.false_eq]
      by_cases hN : ¬ r.domainId = none
      · simp [hN, hG]
      · simp [hN]

/-- Witness for C3 as amended at a concrete unmapped question and a
concrete null-annotated long table. -/
theorem unmapped_question_amended_witness :
    (∃ e, resolveTaxonomy ["ZW1"] [] [] = .error e) ∧
    groupScoresVals [⟨"e1", "T", "Q9", some 3, none, none⟩] ("T") 1 1 =
      groupScoresVals (([⟨"e1", "T", "Q9", some 3, none, none⟩] : List AnnotatedRow).filter
        (fun r => decide (¬ r.subdomain_id = none ∧ ¬ r.domainId = none))) ("T") 1 1 ∧
    domainScoresVals [⟨"e1", "T", "Q9", some 3, none, none⟩] ("T") 1 =
      domainScoresVals (([⟨"e1", "T", "Q9", some 3, none, none⟩] : List AnnotatedRow).filter
        (fun r => decide (¬ r.domainId = none))) ("T") 1 :=
  ⟨(unmapped_question_amended ["ZW1"] [] [] ("ZW1")
      [⟨"e1", "T", "Q9", some 3, none, none⟩] ("T") 1 1).1 (by simp) rfl rfl,
   (unmapped_question_amended ["ZW1"] [] [] ("ZW1")
      [⟨"e1", "T", "Q9", some 3, none, none⟩] ("T") 1 1).2.1,
   (unmapped_question_amended ["ZW1"] [] [] ("ZW1")
      [⟨"e1", "T", "Q9", some 3, none, none⟩] ("T") 1 1).2.2⟩

/-- Counterexample to C4 as stated: on a malformed domain list "3,x" under
subdomain 7 the resolver does fail fast, but its `ValueError` names only
the offending token — the message does not even contain the character 7,
so it does not identify the offending subdomain_id. -/
theorem malformed_domain_counterexample :
    resolveTaxonomy ["Q1"] [⟨"Q1", 7⟩] [⟨7, "3,x"⟩] =
      .error ("invalid literal for int() with base 10: 'x'") ∧
    ('7') ∉ ("invalid literal for int() with base 10: 'x'").data :=
  ⟨rfl, by decide⟩

/-- C4 as amended: whenever the exploded resolver state holds a token that
is not an integer literal, the resolver fails fast with a `ValueError`
identifying some such offending token (not the subdomain_id); no token is
ever silently coerced. -/
theorem malformed_domain_amended (m : List String) (items : List ItemRow)
    (subs : List SubdomainRow) (x : TokenRow)
    (hx : x ∈ explodeDomains (annotatedDF m items subs))
    (hbad : pyInt? x.token = none) :
    ∃ t, pyInt? t = none ∧
      resolveTaxonomy m items subs =
        .error ("invalid literal for int() with base 10: '" ++ t ++ "'") :=
  parseAll_error_of_mem hx hbad

/-- Witness for C4 as amended at the malformed list "3,x". -/
theorem malformed_domain_amended_witness :
    ∃ t, pyInt? t = none ∧
      resolveTaxonomy ["Q1"] [⟨"Q1", 7⟩] [⟨7, "3,x"⟩] =
        .error ("invalid literal for int() with base 10: '" ++ t ++ "'") :=
  malformed_domain_amended ["Q1"] [⟨"Q1", 7⟩] [⟨7, "3,x"⟩] ⟨"Q1", some 7, "x"⟩
    (by decide) rfl

/-- C5: a question code with no automatic item-table match resolves to the
manual override table's subdomain_id when present there, and a question
code the automatic join already resolved keeps its automatic subdomain_id
— the manual table is consulted only for rows the join left null, so an
override entry for an already-resolved question is ignored. -/
theorem override_fallback_resolution (m : List String) (items : List ItemRow)
    (q : String) :
    (∀ v : Int, q ∈ m →
      items.filter (fun r => decide (r.code = q)) = [] →
      List.lookup q manual_map = some v →
      ((q, some v) ∈ fillManual (mergeItems m items) ∧
        ∀ p ∈ fillManual (mergeItems m items), p.1 = q → p.2 = some v)) ∧
    (∀ it : ItemRow, q ∈ m →
      items.filter (fun r => decide (r.code = q)) = [it] →
      ((q, some it.subdomain_id) ∈ fillManual (mergeItems m items) ∧
        ∀ p ∈ fillManual (mergeItems m items), p.1 = q →
          p.2 = some it.subdomain_id)) := by
  constructor
  · intro v hq hitem hman
    have hblock : fillManual (mergeItems [q] items) = [(q, some v)] := by
      rw [fillMerge_override hitem, hman]
    refine ⟨resolvedSubs_decomp.mpr ⟨q, hq, by rw [hblock]; simp⟩, ?_⟩
    intro p hp hpq
    obtain ⟨q', hq', hpq'⟩ := resolvedSubs_decomp.mp hp
    have hkey := fillMerge_singleton_key hpq'
    have hqq : q' = q := by rw [← hkey]; exact hpq
    rw [hqq, hblock] at hpq'
    simp only [List.mem_singleton] at hpq'
    rw [hpq']
  · intro it hq hitem
    have hblock : fillManual (mergeItems [q] items) = [(q, some it.subdomain_id)] :=
      fillMerge_auto hitem
    refine ⟨resolvedSubs_decomp.mpr ⟨q, hq, by rw [hblock]; simp⟩, ?_⟩
    intro p hp hpq
    obtain ⟨q', hq', hpq'⟩ := resolvedSubs_decomp.mp hp
    have hkey := fillMerge_singleton_key hpq'
    have hqq : q' = q := by rw [← hkey]; exact hpq
    rw [hqq, hblock] at hpq'
    simp only [List.mem_singleton] at hpq'
    rw [hpq']

/-- Witness for C5: ZT117 (no item row) resolves to its override value 7;
ZT74 resolves to its item-table value 5 although the override table maps it
to 19. -/
theorem override_fallback_resolution_witness :
    (("ZT117", some (7 : Int)) ∈ fillManual (mergeItems ["ZT117"] []) ∧
      List.lookup ("ZT74") manual_map = some 19) ∧
    ("ZT74", some (5 : Int)) ∈ fillManual (mergeItems ["ZT74"] [⟨"ZT74", 5⟩]) :=
  ⟨⟨((override_fallback_resolution ["ZT117"] [] ("ZT117")).1 7 (by simp) rfl rfl).1,
      rfl⟩,
   ((override_fallback_resolution ["ZT74"] [⟨"ZT74", 5⟩] ("ZT74")).2
      ⟨"ZT74", 5⟩ (by simp) rfl).1⟩

/-- C10: reverse coding commutes with the taxonomy join of step 6: applying
`11 - score` to the joined table (as `WGK.py` does) equals joining the
already-reversed melted records. In particular each of the N duplicated
rows of a multi-domain question carries 11 minus the original melted score,
and the transform touches every row exactly once. -/
theorem reverse_join_commute (recs : List ResponseRecord) (tax : List TaxonomyRow) :
    applyReverseLong (joinTaxonomy recs tax) =
      joinTaxonomy (applyReverseRecords recs) tax := by
  induction recs with
  | nil => rfl
  | cons r rs ih =>
    rw [joinTaxonomy_cons, applyReverseLong_append, applyReverseRecords_cons,
      joinTaxonomy_append, ih, reverse_join_single]

end WGK
